import Mathlib

/-!
Verification development for the snaps execution runtime: the host-side
IframeExecutionEnvironmentService and the isolate-side worker Controller.
JS Maps are modelled as association lists with string keys; the mutable
service object is modelled as an explicit state record threaded through the
operations, and JS throws are modelled with Except.  External behaviour of
the isolate (window creation, ping responses, command responses) is supplied
as explicit behaviour parameters.
-/

namespace Snaps

/-- Association-list model of a JS Map with string keys: Map.get. -/
def alGet {β : Type} : List (String × β) → String → Option β
  | [], _ => none
  | (a, v) :: m, k => if a = k then some v else alGet m k

/-- Association-list model of Map.has. -/
def alHas {β : Type} (m : List (String × β)) (k : String) : Bool :=
  (alGet m k).isSome

/-- Association-list model of Map.set: replace in place, else append. -/
def alSet {β : Type} : List (String × β) → String → β → List (String × β)
  | [], k, v => [(k, v)]
  | (a, w) :: m, k, v => if a = k then (k, v) :: m else (a, w) :: alSet m k v

/-- Association-list model of Map.delete. -/
def alDelete {β : Type} : List (String × β) → String → List (String × β)
  | [], _ => []
  | (a, w) :: m, k => if a = k then alDelete m k else (a, w) :: alDelete m k

/-- Key-set model of a JS Map whose values we do not track: Map.set. -/
def ksSet (l : List String) (k : String) : List String :=
  if k ∈ l then l else l ++ [k]

/-- Key-set model of Map.delete. -/
def ksDelete : List String → String → List String
  | [], _ => []
  | x :: l, k => if x = k then ksDelete l k else x :: ksDelete l k

theorem alGet_cons {β : Type} (a : String) (v : β) (m : List (String × β)) (k : String) :
    alGet ((a, v) :: m) k = if a = k then some v else alGet m k := rfl

theorem alSet_cons {β : Type} (a : String) (w : β) (m : List (String × β)) (k : String) (v : β) :
    alSet ((a, w) :: m) k v = if a = k then (k, v) :: m else (a, w) :: alSet m k v := rfl

theorem alDelete_cons {β : Type} (a : String) (w : β) (m : List (String × β)) (k : String) :
    alDelete ((a, w) :: m) k = if a = k then alDelete m k else (a, w) :: alDelete m k := rfl

theorem ksDelete_cons (x : String) (l : List String) (k : String) :
    ksDelete (x :: l) k = if x = k then ksDelete l k else x :: ksDelete l k := rfl

theorem alGet_cons_self {β : Type} (a : String) (v : β) (m : List (String × β)) :
    alGet ((a, v) :: m) a = some v := by
  simp [alGet_cons]

theorem alGet_set_self {β : Type} (m : List (String × β)) (k : String) (v : β) :
    alGet (alSet m k v) k = some v := by
  induction m with
  | nil => simp [alSet, alGet_cons, alGet]
  | cons hd tl ih =>
    rcases hd with ⟨a, w⟩
    by_cases ha : a = k <;> simp [alSet_cons, alGet_cons, ha, ih]

theorem alGet_set_ne {β : Type} (m : List (String × β)) (k : String) (v : β)
    (k' : String) (h : k' ≠ k) : alGet (alSet m k v) k' = alGet m k' := by
  have h' : k ≠ k' := Ne.symm h
  induction m with
  | nil => simp [alSet, alGet_cons, alGet, h']
  | cons hd tl ih =>
    rcases hd with ⟨a, w⟩
    by_cases ha : a = k
    · subst ha
      simp [alSet_cons, alGet_cons, h']
    · by_cases hak : a = k' <;> simp [alSet_cons, alGet_cons, ha, hak, ih, h]

theorem alGet_delete_self {β : Type} (m : List (String × β)) (k : String) :
    alGet (alDelete m k) k = none := by
  induction m with
  | nil => simp [alDelete, alGet]
  | cons hd tl ih =>
    rcases hd with ⟨a, w⟩
    by_cases ha : a = k <;> simp [alDelete_cons, alGet_cons, ha, ih]

theorem alGet_delete_ne {β : Type} (m : List (String × β)) (k k' : String)
    (h : k' ≠ k) : alGet (alDelete m k) k' = alGet m k' := by
  have h' : k ≠ k' := Ne.symm h
  induction m with
  | nil => simp [alDelete]
  | cons hd tl ih =>
    rcases hd with ⟨a, w⟩
    by_cases ha : a = k
    · subst ha
      simp [alDelete_cons, alGet_cons, h', ih]
    · by_cases hak : a = k' <;> simp [alDelete_cons, alGet_cons, ha, hak, ih, h]

theorem alGet_eq_none_of_not_has {β : Type} {m : List (String × β)} {k : String}
    (h : alHas m k = false) : alGet m k = none := by
  unfold alHas at h
  cases hg : alGet m k with
  | none => rfl
  | some v => simp [hg] at h

theorem alHas_eq_false_iff {β : Type} (m : List (String × β)) (k : String) :
    alHas m k = false ↔ alGet m k = none := by
  unfold alHas
  cases hg : alGet m k <;> simp

theorem alDelete_eq_self_of_not_has {β : Type} {m : List (String × β)} {k : String}
    (h : alHas m k = false) : alDelete m k = m := by
  induction m with
  | nil => rfl
  | cons hd tl ih =>
    rcases hd with ⟨a, w⟩
    by_cases ha : a = k
    · subst ha
      simp [alHas, alGet_cons] at h
    · have htl : alHas tl k = false := by
        simpa [alHas, alGet_cons, ha] using h
      simp [alDelete_cons, ha, ih htl]

theorem alDelete_set_of_not_has {β : Type} {m : List (String × β)} {k : String} (v : β)
    (h : alHas m k = false) : alDelete (alSet m k v) k = m := by
  induction m with
  | nil => simp [alSet, alDelete_cons, alDelete]
  | cons hd tl ih =>
    rcases hd with ⟨a, w⟩
    by_cases ha : a = k
    · subst ha
      simp [alHas, alGet_cons] at h
    · have htl : alHas tl k = false := by
        simpa [alHas, alGet_cons, ha] using h
      simp [alSet_cons, alDelete_cons, ha, ih htl]

theorem keys_set_of_not_has {β : Type} {m : List (String × β)} {k : String} (v : β)
    (h : alHas m k = false) :
    (alSet m k v).map Prod.fst = m.map Prod.fst ++ [k] := by
  induction m with
  | nil => simp [alSet]
  | cons hd tl ih =>
    rcases hd with ⟨a, w⟩
    by_cases ha : a = k
    · subst ha
      simp [alHas, alGet_cons] at h
    · have htl : alHas tl k = false := by
        simpa [alHas, alGet_cons, ha] using h
      simp [alSet_cons, ha, ih htl]

theorem keys_delete {β : Type} (m : List (String × β)) (k : String) :
    (alDelete m k).map Prod.fst = ksDelete (m.map Prod.fst) k := by
  induction m with
  | nil => rfl
  | cons hd tl ih =>
    rcases hd with ⟨a, w⟩
    by_cases ha : a = k <;> simp [alDelete_cons, ksDelete_cons, ha, ih]

theorem mem_keys_iff {β : Type} (m : List (String × β)) (k : String) :
    k ∈ m.map Prod.fst ↔ (alGet m k).isSome := by
  induction m with
  | nil => simp [alGet]
  | cons hd tl ih =>
    rcases hd with ⟨a, w⟩
    by_cases ha : a = k
    · subst ha
      simp [alGet_cons]
    · have ha' : k ≠ a := Ne.symm ha
      simpa [alGet_cons, ha, ha'] using ih

theorem mem_ksDelete {l : List String} {k x : String} :
    x ∈ ksDelete l k ↔ x ∈ l ∧ x ≠ k := by
  induction l with
  | nil => simp [ksDelete]
  | cons hd tl ih =>
    by_cases hhd : hd = k
    · subst hhd
      rw [ksDelete_cons, if_pos rfl, ih]
      simp only [List.mem_cons]
      constructor
      · rintro ⟨hx, hne⟩
        exact ⟨Or.inr hx, hne⟩
      · rintro ⟨hx | hx, hne⟩
        · exact absurd hx hne
        · exact ⟨hx, hne⟩
    · rw [ksDelete_cons, if_neg hhd]
      simp only [List.mem_cons]
      rw [ih]
      constructor
      · rintro (hx | ⟨hx, hne⟩)
        · subst hx
          exact ⟨Or.inl rfl, hhd⟩
        · exact ⟨Or.inr hx, hne⟩
      · rintro ⟨hx | hx, hne⟩
        · exact Or.inl hx
        · exact Or.inr ⟨hx, hne⟩

theorem ksDelete_eq_self_of_not_mem {l : List String} {k : String}
    (h : k ∉ l) : ksDelete l k = l := by
  induction l with
  | nil => rfl
  | cons hd tl ih =>
    have hhd : ¬ hd = k := fun hc => h (by simp [hc])
    have htl : k ∉ tl := fun hc => h (by simp [hc])
    simp [ksDelete_cons, hhd, ih htl]

theorem not_mem_ksDelete_self (l : List String) (k : String) :
    k ∉ ksDelete l k := by
  simp [mem_ksDelete]

theorem mem_ksSet {l : List String} {k x : String} :
    x ∈ ksSet l k ↔ x ∈ l ∨ x = k := by
  unfold ksSet
  by_cases h : k ∈ l
  · simp only [h, if_true]
    constructor
    · exact Or.inl
    · rintro (hx | hx)
      · exact hx
      · exact hx ▸ h
  · simp [h]

theorem mem_ksSet_self (l : List String) (k : String) : k ∈ ksSet l k := by
  simp [mem_ksSet]

theorem ksSet_eq_append_of_not_mem {l : List String} {k : String}
    (h : k ∉ l) : ksSet l k = l ++ [k] := by
  simp [ksSet, h]

theorem ksDelete_nodup {l : List String} (h : l.Nodup) (k : String) :
    (ksDelete l k).Nodup := by
  induction l with
  | nil => exact h
  | cons hd tl ih =>
    rcases List.nodup_cons.mp h with ⟨hhd, htl⟩
    by_cases hk : hd = k
    · rw [ksDelete_cons, if_pos hk]
      exact ih htl
    · rw [ksDelete_cons, if_neg hk]
      refine List.nodup_cons.mpr ⟨?_, ih htl⟩
      intro hc
      exact hhd (mem_ksDelete.mp hc).1

theorem ksDelete_cons_self {l : List String} {k : String} (h : k ∉ l) :
    ksDelete (k :: l) k = l := by
  simp [ksDelete_cons, ksDelete_eq_self_of_not_mem h]

/-! ## Host-side service state

State of an IframeExecutionEnvironmentService instance.  The fields jobs,
snapToJobMap, jobToSnapMap, snapRpcHooks and timeoutForUnresponsiveMap mirror
the Maps of the class (hooks and timers are tracked by key set; the hook
closure itself is modelled separately by snapRpcHook below).  iframes tracks
the job ids whose iframe element is attached to the document, and liveStreams
the job ids whose streams have not been destroyed. -/

structure ServiceState where
  iframeUrl : String
  jobs : List String
  snapToJobMap : List (String × String)
  jobToSnapMap : List (String × String)
  snapRpcHooks : List String
  timeoutForUnresponsiveMap : List String
  iframes : List String
  liveStreams : List String
deriving Repr, DecidableEq

/-- The state of a freshly constructed service. -/
def initialService (url : String) : ServiceState :=
  ⟨url, [], [], [], [], [], [], []⟩

/-- Default of the unresponsivePollingInterval constructor argument (ms). -/
def defaultUnresponsivePollingInterval : Nat := 5000

/-- Default of the unresponsiveTimeout constructor argument (ms). -/
def defaultUnresponsiveTimeout : Nat := 30000

/-- Default of the createWindowTimeout constructor argument (ms). -/
def defaultCreateWindowTimeout : Nat := 60000

/-- Observable actions of the service, in program order. -/
inductive SEvent where
  | jobSpawned (jobId : String)
  | mapped (snapId jobId : String)
  | executeConfirmed (jobId : String)
  | providerSetup (snapId : String)
  | timerSet (snapId : String)
  | hookInstalled (snapId : String)
  | streamsDestroyed (jobId : String)
  | containerRemoved (jobId : String)
  | timerCleared (snapId : String)
  | mappingRemoved (jobId snapId : String)
  | hookRemoved (snapId : String)
  | jobDeleted (jobId : String)
deriving Repr, DecidableEq, BEq

/-- _mapSnapAndJob: set both directions of the snap↔job mapping. -/
def _mapSnapAndJob (s : ServiceState) (snapId jobId : String) : ServiceState :=
  { s with snapToJobMap := alSet s.snapToJobMap snapId jobId
           jobToSnapMap := alSet s.jobToSnapMap jobId snapId }

/-- _removeSnapHooks: delete the RPC hook of a snap. -/
def _removeSnapHooks (s : ServiceState) (snapId : String) : ServiceState :=
  { s with snapRpcHooks := ksDelete s.snapRpcHooks snapId }

/-- _createSnapHooks: install the RPC hook of a snap (state part). -/
def _createSnapHooks (s : ServiceState) (snapId : String) : ServiceState :=
  { s with snapRpcHooks := ksSet s.snapRpcHooks snapId }

/-- _removeSnapAndJobMapping: drop both mapping directions and the hook;
throws when the job has no mapped snap. -/
def _removeSnapAndJobMapping (s : ServiceState) (jobId : String) :
    ServiceState × Except String Unit :=
  match alGet s.jobToSnapMap jobId with
  | none => (s, .error ("job: \"" ++ jobId ++ "\" has no mapped snap."))
  | some snapId =>
    (_removeSnapHooks
      { s with jobToSnapMap := alDelete s.jobToSnapMap jobId
               snapToJobMap := alDelete s.snapToJobMap snapId } snapId,
     .ok ())

/-- terminate(jobId): destroy streams (swallowing destroy errors), remove the
iframe container, clear the liveness timer, drop mapping and hook, drop the
job record.  Throws when the job is unknown or has no mapped snap. -/
def terminate (s : ServiceState) (jobId : String) :
    ServiceState × List SEvent × Except String Unit :=
  if s.jobs.contains jobId then
    match alGet s.jobToSnapMap jobId with
    | none =>
      (s, [], .error ("Failed to find a snap for job with id \"" ++ jobId ++ "\""))
    | some snapId =>
      let s1 := { s with liveStreams := ksDelete s.liveStreams jobId
                         iframes := ksDelete s.iframes jobId
                         timeoutForUnresponsiveMap :=
                           ksDelete s.timeoutForUnresponsiveMap snapId }
      match _removeSnapAndJobMapping s1 jobId with
      | (s2, .error e) =>
        (s2, [.streamsDestroyed jobId, .containerRemoved jobId, .timerCleared snapId],
         .error e)
      | (s2, .ok _) =>
        ({ s2 with jobs := ksDelete s2.jobs jobId },
         [.streamsDestroyed jobId, .containerRemoved jobId, .timerCleared snapId,
          .mappingRemoved jobId snapId, .hookRemoved snapId, .jobDeleted jobId],
         .ok ())
  else
    (s, [], .error ("Job with id \"" ++ jobId ++ "\" not found."))

/-- terminateSnap(snapId): resolve the snap to its job and terminate it. -/
def terminateSnap (s : ServiceState) (snapId : String) :
    ServiceState × List SEvent × Except String Unit :=
  match alGet s.snapToJobMap snapId with
  | none => (s, [], .error ("Job not found for snap with id \"" ++ snapId ++ "\"."))
  | some jobId => terminate s jobId

/-- The loop body of terminateAllSnaps over the job ids present at entry. -/
def terminateAllGo : ServiceState → List String → ServiceState × Except String Unit
  | s, [] => (s, .ok ())
  | s, j :: rest =>
    match terminate s j with
    | (s1, _, .ok _) => terminateAllGo s1 rest
    | (s1, _, .error e) => (s1, .error e)

/-- terminateAllSnaps: terminate every job, then clear all RPC hooks. -/
def terminateAllSnaps (s : ServiceState) : ServiceState × Except String Unit :=
  match terminateAllGo s s.jobs with
  | (s1, .ok _) => ({ s1 with snapRpcHooks := [] }, .ok ())
  | (s1, .error e) => (s1, .error e)

/-- Outcome of the isolate spawn handshake, as seen by the host: whether the
iframe window loads before createWindowTimeout, and the result of the initial
ping command. -/
structure InitBehavior where
  windowOk : Bool
  pingResult : Except String Unit
deriving Repr

/-- _createWindow: append an iframe to the document; on load timeout the
iframe is removed again and the promise rejects. -/
def _createWindow (s : ServiceState) (jobId : String) (b : InitBehavior) :
    ServiceState × Except String Unit :=
  if b.windowOk then
    ({ s with iframes := s.iframes ++ [jobId] }, .ok ())
  else
    (s, .error ("Timed out creating iframe window: \"" ++ s.iframeUrl ++ "\""))

/-- _initStreams: create the window, then the multiplexed streams. -/
def _initStreams (s : ServiceState) (jobId : String) (b : InitBehavior) :
    ServiceState × Except String Unit :=
  match _createWindow s jobId b with
  | (s1, .error e) => (s1, .error e)
  | (s1, .ok _) => ({ s1 with liveStreams := s1.liveStreams ++ [jobId] }, .ok ())

/-- _init: build streams, store the job record, then send the initial ping
and await its response.  Nothing is torn down when the ping fails. -/
def _init (s : ServiceState) (jobId : String) (b : InitBehavior) :
    ServiceState × List SEvent × Except String Unit :=
  match _initStreams s jobId b with
  | (s1, .error e) => (s1, [], .error e)
  | (s1, .ok _) =>
    let s2 := { s1 with jobs := ksSet s1.jobs jobId }
    match b.pingResult with
    | .error e => (s2, [], .error e)
    | .ok _ => (s2, [.jobSpawned jobId], .ok ())

/-- _pollForJobStatus (state part): look the snap up in the mapping and store
the liveness timer handle under the snap id. -/
def _pollForJobStatus (s : ServiceState) (snapId : String) :
    ServiceState × List SEvent × Except String Unit :=
  match alGet s.snapToJobMap snapId with
  | none => (s, [], .error "no job id found for snap")
  | some _ =>
    ({ s with timeoutForUnresponsiveMap := ksSet s.timeoutForUnresponsiveMap snapId },
     [.timerSet snapId], .ok ())

/-- Host-observed outcome of one executeSnap call: the spawn handshake plus
the response of the isolate to the executeSnap command. -/
structure ExecBehavior where
  windowOk : Bool
  pingResult : Except String Unit
  execResult : Except String String
deriving Repr

/-- The part of executeSnap up to and including _mapSnapAndJob: the guard
against double execution, the spawn (_init), and the mapping installation.
This is the state the service is in while the executeSnap command sent to the
isolate is still awaiting its response. -/
def execPhase1 (s : ServiceState) (snapId jobId : String) (b : InitBehavior) :
    ServiceState × List SEvent × Except String Unit :=
  if alHas s.snapToJobMap snapId then
    (s, [], .error ("Snap \"" ++ snapId ++ "\" is already being executed."))
  else
    match _init s jobId b with
    | (s1, evs, .error e) => (s1, evs, .error e)
    | (s1, evs, .ok _) =>
      (_mapSnapAndJob s1 snapId jobId, evs ++ [.mapped snapId jobId], .ok ())

/-- The part of executeSnap after the executeSnap command response arrives:
on error terminate the job and rethrow; on success run setupSnapProvider,
start liveness polling and install the RPC hook. -/
def execPhase2 (s : ServiceState) (snapId jobId : String)
    (r : Except String String) : ServiceState × List SEvent × Except String String :=
  match r with
  | .error e =>
    match terminate s jobId with
    | (s1, evs, _) => (s1, evs, .error e)
  | .ok result =>
    match _pollForJobStatus s snapId with
    | (s1, evs1, .error e) =>
      (s1, [SEvent.executeConfirmed jobId, SEvent.providerSetup snapId] ++ evs1,
       .error e)
    | (s1, evs1, .ok _) =>
      (_createSnapHooks s1 snapId,
       [SEvent.executeConfirmed jobId, SEvent.providerSetup snapId] ++ evs1 ++
         [SEvent.hookInstalled snapId],
       .ok result)

/-- executeSnap(snapData): phase 1 (guard, spawn, mapping), then the command
round trip, then phase 2.  jobId stands for the nanoid minted in _init and b
for the behaviour of the isolate. -/
def executeSnap (s : ServiceState) (snapId jobId : String) (b : ExecBehavior) :
    ServiceState × List SEvent × Except String String :=
  match execPhase1 s snapId jobId ⟨b.windowOk, b.pingResult⟩ with
  | (s1, evs, .error e) => (s1, evs, .error e)
  | (s1, evs, .ok _) =>
    match execPhase2 s1 snapId jobId b.execResult with
    | (s2, evs2, r) => (s2, evs ++ evs2, r)

/-! ## Shape lemmas: the exact state and trace of each operation branch -/

theorem contains_eq_true_iff (l : List String) (k : String) :
    l.contains k = true ↔ k ∈ l := by
  simp

/-- The state terminate leaves behind for a known job mapped to snapId. -/
def stateTerm (s : ServiceState) (jobId snapId : String) : ServiceState :=
  { s with liveStreams := ksDelete s.liveStreams jobId
           iframes := ksDelete s.iframes jobId
           timeoutForUnresponsiveMap := ksDelete s.timeoutForUnresponsiveMap snapId
           jobToSnapMap := alDelete s.jobToSnapMap jobId
           snapToJobMap := alDelete s.snapToJobMap snapId
           snapRpcHooks := ksDelete s.snapRpcHooks snapId
           jobs := ksDelete s.jobs jobId }

theorem terminate_not_found {s : ServiceState} {jobId : String}
    (h : jobId ∉ s.jobs) :
    terminate s jobId =
      (s, [], .error ("Job with id \"" ++ jobId ++ "\" not found.")) := by
  have hc : s.jobs.contains jobId = false := by
    cases hx : s.jobs.contains jobId with
    | false => rfl
    | true => exact absurd ((contains_eq_true_iff _ _).mp hx) h
  simp [terminate, hc]
  intro hmem
  exact absurd hmem h

theorem terminate_no_snap {s : ServiceState} {jobId : String}
    (h : jobId ∈ s.jobs) (hm : alGet s.jobToSnapMap jobId = none) :
    terminate s jobId =
      (s, [],
       .error ("Failed to find a snap for job with id \"" ++ jobId ++ "\"")) := by
  have hc : s.jobs.contains jobId = true := (contains_eq_true_iff _ _).mpr h
  simp [terminate, hc, hm]
  intro hmem
  exact absurd h hmem

theorem terminate_ok {s : ServiceState} {jobId snapId : String}
    (h : jobId ∈ s.jobs) (hm : alGet s.jobToSnapMap jobId = some snapId) :
    terminate s jobId =
      (stateTerm s jobId snapId,
       [.streamsDestroyed jobId, .containerRemoved jobId, .timerCleared snapId,
        .mappingRemoved jobId snapId, .hookRemoved snapId, .jobDeleted jobId],
       .ok ()) := by
  have hc : s.jobs.contains jobId = true := (contains_eq_true_iff _ _).mpr h
  simp [terminate, hc, hm, _removeSnapAndJobMapping, _removeSnapHooks, stateTerm]
  exact h

theorem _init_noWindow {s : ServiceState} {jobId : String} {b : InitBehavior}
    (h : b.windowOk = false) :
    _init s jobId b =
      (s, [],
       .error ("Timed out creating iframe window: \"" ++ s.iframeUrl ++ "\"")) := by
  simp [_init, _initStreams, _createWindow, h]

/-- The state _init leaves behind once the window and streams exist and the
job record is stored (before the outcome of the initial ping is known). -/
def stateSpawned (s : ServiceState) (jobId : String) : ServiceState :=
  { s with iframes := s.iframes ++ [jobId]
           liveStreams := s.liveStreams ++ [jobId]
           jobs := ksSet s.jobs jobId }

theorem _init_pingFail {s : ServiceState} {jobId : String} {b : InitBehavior}
    {e : String} (hw : b.windowOk = true) (hp : b.pingResult = .error e) :
    _init s jobId b = (stateSpawned s jobId, [], .error e) := by
  simp [_init, _initStreams, _createWindow, hw, hp, stateSpawned]

theorem _init_ok {s : ServiceState} {jobId : String} {b : InitBehavior}
    (hw : b.windowOk = true) (hp : b.pingResult = .ok ()) :
    _init s jobId b = (stateSpawned s jobId, [.jobSpawned jobId], .ok ()) := by
  simp [_init, _initStreams, _createWindow, hw, hp, stateSpawned]

theorem execPhase1_already {s : ServiceState} {snapId jobId : String}
    {b : InitBehavior} (h : alHas s.snapToJobMap snapId = true) :
    execPhase1 s snapId jobId b =
      (s, [], .error ("Snap \"" ++ snapId ++ "\" is already being executed.")) := by
  simp [execPhase1, h]

/-- The state after phase 1 of a successful spawn: job spawned and both
mapping directions installed. -/
def stateP1 (s : ServiceState) (snapId jobId : String) : ServiceState :=
  _mapSnapAndJob (stateSpawned s jobId) snapId jobId

theorem execPhase1_noWindow {s : ServiceState} {snapId jobId : String}
    {b : InitBehavior} (hg : alHas s.snapToJobMap snapId = false)
    (hw : b.windowOk = false) :
    execPhase1 s snapId jobId b =
      (s, [],
       .error ("Timed out creating iframe window: \"" ++ s.iframeUrl ++ "\"")) := by
  simp [execPhase1, hg, _init_noWindow hw]

theorem execPhase1_pingFail {s : ServiceState} {snapId jobId : String}
    {b : InitBehavior} {e : String} (hg : alHas s.snapToJobMap snapId = false)
    (hw : b.windowOk = true) (hp : b.pingResult = .error e) :
    execPhase1 s snapId jobId b = (stateSpawned s jobId, [], .error e) := by
  simp [execPhase1, hg, _init_pingFail hw hp]

theorem execPhase1_ok {s : ServiceState} {snapId jobId : String}
    {b : InitBehavior} (hg : alHas s.snapToJobMap snapId = false)
    (hw : b.windowOk = true) (hp : b.pingResult = .ok ()) :
    execPhase1 s snapId jobId b =
      (stateP1 s snapId jobId, [.jobSpawned jobId, .mapped snapId jobId], .ok ()) := by
  simp [execPhase1, hg, _init_ok hw hp, stateP1]

theorem execPhase2_err {s : ServiceState} {snapId jobId : String} {e : String} :
    execPhase2 s snapId jobId (.error e) =
      ((terminate s jobId).1, (terminate s jobId).2.1, .error e) := by
  rcases ht : terminate s jobId with ⟨s1, evs, r⟩
  simp [execPhase2, ht]

/-- The state after phase 2 of a successful executeSnap: liveness timer set
and RPC hook installed. -/
def stateP2ok (s : ServiceState) (snapId : String) : ServiceState :=
  _createSnapHooks
    { s with timeoutForUnresponsiveMap := ksSet s.timeoutForUnresponsiveMap snapId }
    snapId

theorem execPhase2_ok_mapped {s : ServiceState} {snapId jobId : String}
    {res : String} (h : (alGet s.snapToJobMap snapId).isSome) :
    execPhase2 s snapId jobId (.ok res) =
      (stateP2ok s snapId,
       [.executeConfirmed jobId, .providerSetup snapId, .timerSet snapId,
        .hookInstalled snapId],
       .ok res) := by
  rcases hg : alGet s.snapToJobMap snapId with _ | j
  · rw [hg] at h
    simp at h
  · simp [execPhase2, _pollForJobStatus, hg, stateP2ok, _createSnapHooks]

theorem executeSnap_already {s : ServiceState} {snapId jobId : String}
    {b : ExecBehavior} (h : alHas s.snapToJobMap snapId = true) :
    executeSnap s snapId jobId b =
      (s, [], .error ("Snap \"" ++ snapId ++ "\" is already being executed.")) := by
  simp [executeSnap, execPhase1_already h]

theorem executeSnap_noWindow {s : ServiceState} {snapId jobId : String}
    {b : ExecBehavior} (hg : alHas s.snapToJobMap snapId = false)
    (hw : b.windowOk = false) :
    executeSnap s snapId jobId b =
      (s, [],
       .error ("Timed out creating iframe window: \"" ++ s.iframeUrl ++ "\"")) := by
  have h1 := @execPhase1_noWindow s snapId jobId ⟨b.windowOk, b.pingResult⟩ hg hw
  simp [executeSnap, h1]

theorem executeSnap_pingFail {s : ServiceState} {snapId jobId : String}
    {b : ExecBehavior} {e : String} (hg : alHas s.snapToJobMap snapId = false)
    (hw : b.windowOk = true) (hp : b.pingResult = .error e) :
    executeSnap s snapId jobId b = (stateSpawned s jobId, [], .error e) := by
  have h1 := @execPhase1_pingFail s snapId jobId ⟨b.windowOk, b.pingResult⟩ e hg hw hp
  simp [executeSnap, h1]

theorem stateP1_jobToSnap (s : ServiceState) (snapId jobId : String) :
    alGet (stateP1 s snapId jobId).jobToSnapMap jobId = some snapId := by
  simp [stateP1, _mapSnapAndJob, stateSpawned, alGet_set_self]

theorem stateP1_snapToJob (s : ServiceState) (snapId jobId : String) :
    alGet (stateP1 s snapId jobId).snapToJobMap snapId = some jobId := by
  simp [stateP1, _mapSnapAndJob, stateSpawned, alGet_set_self]

theorem stateP1_mem_jobs (s : ServiceState) (snapId jobId : String) :
    jobId ∈ (stateP1 s snapId jobId).jobs := by
  simp [stateP1, _mapSnapAndJob, stateSpawned, mem_ksSet_self]

theorem executeSnap_cmdError {s : ServiceState} {snapId jobId : String}
    {b : ExecBehavior} {e : String} (hg : alHas s.snapToJobMap snapId = false)
    (hw : b.windowOk = true) (hp : b.pingResult = .ok ())
    (hx : b.execResult = .error e) :
    executeSnap s snapId jobId b =
      (stateTerm (stateP1 s snapId jobId) jobId snapId,
       [.jobSpawned jobId, .mapped snapId jobId, .streamsDestroyed jobId,
        .containerRemoved jobId, .timerCleared snapId,
        .mappingRemoved jobId snapId, .hookRemoved snapId, .jobDeleted jobId],
       .error e) := by
  have h1 := @execPhase1_ok s snapId jobId ⟨b.windowOk, b.pingResult⟩ hg hw hp
  have ht := terminate_ok (stateP1_mem_jobs s snapId jobId)
    (stateP1_jobToSnap s snapId jobId)
  simp [executeSnap, h1, hx, execPhase2_err, ht]

theorem executeSnap_ok {s : ServiceState} {snapId jobId : String}
    {b : ExecBehavior} {res : String} (hg : alHas s.snapToJobMap snapId = false)
    (hw : b.windowOk = true) (hp : b.pingResult = .ok ())
    (hx : b.execResult = .ok res) :
    executeSnap s snapId jobId b =
      (stateP2ok (stateP1 s snapId jobId) snapId,
       [.jobSpawned jobId, .mapped snapId jobId, .executeConfirmed jobId,
        .providerSetup snapId, .timerSet snapId, .hookInstalled snapId],
       .ok res) := by
  have h1 := @execPhase1_ok s snapId jobId ⟨b.windowOk, b.pingResult⟩ hg hw hp
  have h2 := @execPhase2_ok_mapped (stateP1 s snapId jobId) snapId jobId res
    (by rw [stateP1_snapToJob]; rfl)
  simp [executeSnap, h1, hx, h2]

theorem executeSnap_ok_elim {s : ServiceState} {snapId jobId : String}
    {b : ExecBehavior} {r : String}
    (h : (executeSnap s snapId jobId b).2.2 = .ok r) :
    alHas s.snapToJobMap snapId = false ∧ b.windowOk = true ∧
      b.pingResult = .ok () ∧ b.execResult = .ok r := by
  by_cases hg : alHas s.snapToJobMap snapId
  · rw [executeSnap_already hg] at h
    simp at h
  · have hg' : alHas s.snapToJobMap snapId = false := by simpa using hg
    cases hw : b.windowOk with
    | false =>
      rw [executeSnap_noWindow hg' hw] at h
      simp at h
    | true =>
      cases hp : b.pingResult with
      | error e =>
        rw [executeSnap_pingFail hg' hw hp] at h
        simp at h
      | ok u =>
        cases u
        cases hx : b.execResult with
        | error e =>
          rw [executeSnap_cmdError hg' hw hp hx] at h
          simp at h
        | ok res =>
          rw [executeSnap_ok hg' hw hp hx] at h
          simp at h
          exact ⟨hg', rfl, rfl, by rw [h]⟩

/-! ## Invariants and reachability -/

/-- Freshness of a minted jobId (collision freedom of nanoid). -/
def freshJobId (s : ServiceState) (jobId : String) : Prop :=
  jobId ∉ s.jobs ∧ alGet s.jobToSnapMap jobId = none ∧
    jobId ∉ s.iframes ∧ jobId ∉ s.liveStreams

/-- Structural invariant of the service maps: the two mapping directions are
mutually inverse, every mapped job has a job record, every liveness timer
belongs to a mapped snap, and job ids are unique. -/
structure MapInv (s : ServiceState) : Prop where
  inverse : ∀ a b, alGet s.snapToJobMap a = some b ↔ alGet s.jobToSnapMap b = some a
  mappedJobs : ∀ a b, alGet s.snapToJobMap a = some b → b ∈ s.jobs
  timersSub : ∀ a, a ∈ s.timeoutForUnresponsiveMap → (alGet s.snapToJobMap a).isSome
  jobsNodup : s.jobs.Nodup

/-- A hook is stored exactly for the keys of the snap↔job mapping. -/
def HooksEq (s : ServiceState) : Prop :=
  s.snapRpcHooks = s.snapToJobMap.map Prod.fst

theorem nodup_append_singleton {l : List String} {k : String}
    (h : l.Nodup) (hk : k ∉ l) : (l ++ [k]).Nodup := by
  induction l with
  | nil => simp
  | cons hd tl ih =>
    rcases List.nodup_cons.mp h with ⟨h1, h2⟩
    have hk' : k ∉ tl := fun hc => hk (by simp [hc])
    refine List.nodup_cons.mpr ⟨?_, ih h2 hk'⟩
    intro hc
    rcases List.mem_append.mp hc with hc | hc
    · exact h1 hc
    · simp only [List.mem_singleton] at hc
      subst hc
      exact hk (by simp)

theorem inverse_insert {S J : List (String × String)} {A j : String}
    (hinv : ∀ a b, alGet S a = some b ↔ alGet J b = some a)
    (hA : alGet S A = none) (hj : alGet J j = none) :
    ∀ a b, alGet (alSet S A j) a = some b ↔ alGet (alSet J j A) b = some a := by
  intro a b
  by_cases ha : a = A
  · subst ha
    rw [alGet_set_self]
    by_cases hb : b = j
    · subst hb
      rw [alGet_set_self]
      simp
    · rw [alGet_set_ne _ _ _ _ hb]
      constructor
      · intro hc
        injection hc with hc
        exact absurd hc.symm hb
      · intro hc
        have hcc := (hinv a b).mpr hc
        rw [hA] at hcc
        simp at hcc
  · rw [alGet_set_ne _ _ _ _ ha]
    by_cases hb : b = j
    · subst hb
      rw [alGet_set_self]
      constructor
      · intro hc
        have hcc := (hinv a b).mp hc
        rw [hj] at hcc
        simp at hcc
      · intro hc
        injection hc with hc
        exact absurd hc.symm ha
    · rw [alGet_set_ne _ _ _ _ hb]
      exact hinv a b

theorem inverse_delete {S J : List (String × String)} {A j : String}
    (hinv : ∀ a b, alGet S a = some b ↔ alGet J b = some a)
    (hAj : alGet J j = some A) :
    ∀ a b, alGet (alDelete S A) a = some b ↔ alGet (alDelete J j) b = some a := by
  have hSA : alGet S A = some j := (hinv A j).mpr hAj
  intro a b
  by_cases ha : a = A
  · subst ha
    rw [alGet_delete_self]
    by_cases hb : b = j
    · subst hb
      rw [alGet_delete_self]
      simp
    · rw [alGet_delete_ne _ _ _ hb]
      constructor
      · intro hc
        simp at hc
      · intro hc
        have hcc := hSA.symm.trans ((hinv a b).mpr hc)
        injection hcc with hcc
        exact absurd hcc.symm hb
  · rw [alGet_delete_ne _ _ _ ha]
    by_cases hb : b = j
    · subst hb
      rw [alGet_delete_self]
      constructor
      · intro hc
        have hcc := (hinv a b).mp hc
        rw [hAj] at hcc
        injection hcc with hcc
        exact absurd hcc.symm ha
      · intro hc
        simp at hc
    · rw [alGet_delete_ne _ _ _ hb]
      exact hinv a b

theorem mapinv_stateSpawned {s : ServiceState} (hs : MapInv s) {j : String}
    (hf : j ∉ s.jobs) : MapInv (stateSpawned s j) := by
  constructor
  · intro a b
    simpa [stateSpawned] using hs.inverse a b
  · intro a b h
    simp only [stateSpawned] at h ⊢
    exact mem_ksSet.mpr (Or.inl (hs.mappedJobs a b h))
  · intro a ha
    simp only [stateSpawned] at ha ⊢
    exact hs.timersSub a ha
  · simp only [stateSpawned]
    rw [ksSet_eq_append_of_not_mem hf]
    exact nodup_append_singleton hs.jobsNodup hf

theorem mapinv_stateTerm {s : ServiceState} (hs : MapInv s) {j A : String}
    (hm : alGet s.jobToSnapMap j = some A) : MapInv (stateTerm s j A) := by
  have hSA : alGet s.snapToJobMap A = some j := (hs.inverse A j).mpr hm
  constructor
  · intro a b
    simp only [stateTerm]
    exact inverse_delete hs.inverse hm a b
  · intro a b hab
    simp only [stateTerm] at hab ⊢
    by_cases ha : a = A
    · subst ha
      rw [alGet_delete_self] at hab
      simp at hab
    · rw [alGet_delete_ne _ _ _ ha] at hab
      have hbj : b ≠ j := by
        intro hc
        subst hc
        have := (hs.inverse a b).mp hab
        rw [hm] at this
        injection this with this
        exact ha this.symm
      exact mem_ksDelete.mpr ⟨hs.mappedJobs a b hab, hbj⟩
  · intro a ha
    simp only [stateTerm] at ha ⊢
    rcases mem_ksDelete.mp ha with ⟨ha1, ha2⟩
    rw [alGet_delete_ne _ _ _ ha2]
    exact hs.timersSub a ha1
  · simp only [stateTerm]
    exact ksDelete_nodup hs.jobsNodup j

theorem mapinv_terminate {s : ServiceState} (hs : MapInv s) (jobId : String) :
    MapInv (terminate s jobId).1 := by
  by_cases hj : jobId ∈ s.jobs
  · cases hm : alGet s.jobToSnapMap jobId with
    | none =>
      rw [terminate_no_snap hj hm]
      exact hs
    | some snapId =>
      rw [terminate_ok hj hm]
      exact mapinv_stateTerm hs hm
  · rw [terminate_not_found hj]
    exact hs

theorem mapinv_terminateSnap {s : ServiceState} (hs : MapInv s) (snapId : String) :
    MapInv (terminateSnap s snapId).1 := by
  cases hg : alGet s.snapToJobMap snapId with
  | none =>
    simp only [terminateSnap, hg]
    exact hs
  | some jobId =>
    simp only [terminateSnap, hg]
    exact mapinv_terminate hs jobId

theorem mapinv_execPhase1 {s : ServiceState} (hs : MapInv s) (A j : String)
    (b : InitBehavior) (hf : freshJobId s j) : MapInv (execPhase1 s A j b).1 := by
  by_cases hg : alHas s.snapToJobMap A
  · rw [execPhase1_already hg]
    exact hs
  · have hg' : alHas s.snapToJobMap A = false := by simpa using hg
    cases hw : b.windowOk with
    | false =>
      rw [execPhase1_noWindow hg' hw]
      exact hs
    | true =>
      cases hp : b.pingResult with
      | error e =>
        rw [execPhase1_pingFail hg' hw hp]
        exact mapinv_stateSpawned hs hf.1
      | ok u =>
        cases u
        rw [execPhase1_ok hg' hw hp]
        have hAnone : alGet s.snapToJobMap A = none := alGet_eq_none_of_not_has hg'
        constructor
        · intro a b2
          simp only [stateP1, _mapSnapAndJob, stateSpawned]
          exact inverse_insert hs.inverse hAnone hf.2.1 a b2
        · intro a b2 hab
          simp only [stateP1, _mapSnapAndJob, stateSpawned] at hab ⊢
          by_cases ha : a = A
          · subst ha
            rw [alGet_set_self] at hab
            injection hab with hab
            subst hab
            exact mem_ksSet_self _ _
          · rw [alGet_set_ne _ _ _ _ ha] at hab
            exact mem_ksSet.mpr (Or.inl (hs.mappedJobs a b2 hab))
        · intro a ha
          simp only [stateP1, _mapSnapAndJob, stateSpawned] at ha ⊢
          by_cases haA : a = A
          · subst haA
            rw [alGet_set_self]
            simp
          · rw [alGet_set_ne _ _ _ _ haA]
            exact hs.timersSub a ha
        · simp only [stateP1, _mapSnapAndJob, stateSpawned]
          rw [ksSet_eq_append_of_not_mem hf.1]
          exact nodup_append_singleton hs.jobsNodup hf.1

theorem mapinv_execPhase2 {s : ServiceState} (hs : MapInv s) (A j : String)
    (r : Except String String) : MapInv (execPhase2 s A j r).1 := by
  cases r with
  | error e =>
    rw [execPhase2_err]
    exact mapinv_terminate hs j
  | ok res =>
    cases hg : alGet s.snapToJobMap A with
    | none =>
      simp only [execPhase2, _pollForJobStatus, hg]
      exact hs
    | some j2 =>
      rw [execPhase2_ok_mapped (by rw [hg]; rfl)]
      constructor
      · intro a b
        simpa [stateP2ok, _createSnapHooks] using hs.inverse a b
      · intro a b h
        simp only [stateP2ok, _createSnapHooks] at h ⊢
        exact hs.mappedJobs a b h
      · intro a ha
        simp only [stateP2ok, _createSnapHooks] at ha ⊢
        rcases mem_ksSet.mp ha with ha | ha
        · exact hs.timersSub a ha
        · subst ha
          rw [hg]
          rfl
      · simpa [stateP2ok, _createSnapHooks] using hs.jobsNodup

theorem mapinv_executeSnap {s : ServiceState} (hs : MapInv s) (A j : String)
    (b : ExecBehavior) (hf : freshJobId s j) : MapInv (executeSnap s A j b).1 := by
  rcases h1 : execPhase1 s A j ⟨b.windowOk, b.pingResult⟩ with ⟨s1, evs, r1⟩
  have hs1 : MapInv s1 := by
    have hh := mapinv_execPhase1 hs A j ⟨b.windowOk, b.pingResult⟩ hf
    rw [h1] at hh
    exact hh
  cases r1 with
  | error e =>
    simp only [executeSnap, h1]
    exact hs1
  | ok u =>
    rcases h2 : execPhase2 s1 A j b.execResult with ⟨s2, evs2, r2⟩
    have hh := mapinv_execPhase2 hs1 A j b.execResult
    rw [h2] at hh
    simp only [executeSnap, h1, h2]
    exact hh

theorem hooksEq_terminate {s : ServiceState} (he : HooksEq s) (jobId : String) :
    HooksEq (terminate s jobId).1 := by
  by_cases hj : jobId ∈ s.jobs
  · cases hm : alGet s.jobToSnapMap jobId with
    | none =>
      rw [terminate_no_snap hj hm]
      exact he
    | some A =>
      rw [terminate_ok hj hm]
      simp only [HooksEq, stateTerm]
      rw [keys_delete, he]
  · rw [terminate_not_found hj]
    exact he

theorem hooksEq_terminateSnap {s : ServiceState} (he : HooksEq s) (snapId : String) :
    HooksEq (terminateSnap s snapId).1 := by
  cases hg : alGet s.snapToJobMap snapId with
  | none =>
    simp only [terminateSnap, hg]
    exact he
  | some jobId =>
    simp only [terminateSnap, hg]
    exact hooksEq_terminate he jobId

theorem hooksEq_executeSnap {s : ServiceState} (he : HooksEq s) (A j : String)
    (b : ExecBehavior) : HooksEq (executeSnap s A j b).1 := by
  by_cases hg : alHas s.snapToJobMap A
  · rw [executeSnap_already hg]
    exact he
  · have hg' : alHas s.snapToJobMap A = false := by simpa using hg
    cases hw : b.windowOk with
    | false =>
      rw [executeSnap_noWindow hg' hw]
      exact he
    | true =>
      cases hp : b.pingResult with
      | error e =>
        rw [executeSnap_pingFail hg' hw hp]
        simpa [HooksEq, stateSpawned] using he
      | ok u =>
        cases u
        have hA_not : A ∉ s.snapRpcHooks := by
          rw [he, mem_keys_iff, alGet_eq_none_of_not_has hg']
          simp
        cases hx : b.execResult with
        | error e =>
          rw [executeSnap_cmdError hg' hw hp hx]
          simp only [HooksEq, stateTerm, stateP1, _mapSnapAndJob, stateSpawned]
          rw [alDelete_set_of_not_has _ hg']
          rw [ksDelete_eq_self_of_not_mem hA_not]
          exact he
        | ok res =>
          rw [executeSnap_ok hg' hw hp hx]
          simp only [HooksEq, stateP2ok, _createSnapHooks, stateP1,
            _mapSnapAndJob, stateSpawned]
          rw [ksSet_eq_append_of_not_mem hA_not, keys_set_of_not_has _ hg', he]

/-- States reachable by a contract-obeying sequence of atomic executeSnap and
terminateSnap calls: fresh job ids, no double execute, no terminate-unknown. -/
inductive Reach : ServiceState → Prop where
  | start (url : String) : Reach (initialService url)
  | exec {s : ServiceState} (snapId jobId : String) (b : ExecBehavior) :
      Reach s → freshJobId s jobId → alGet s.snapToJobMap snapId = none →
      Reach (executeSnap s snapId jobId b).1
  | term {s : ServiceState} (snapId : String) :
      Reach s → (alGet s.snapToJobMap snapId).isSome →
      Reach (terminateSnap s snapId).1

/-- States reachable when executeSnap calls may interleave at the await of the
executeSnap command: phase 1 and phase 2 are separate steps. -/
inductive ReachI : ServiceState → Prop where
  | start (url : String) : ReachI (initialService url)
  | phase1 {s : ServiceState} (snapId jobId : String) (b : InitBehavior) :
      ReachI s → freshJobId s jobId → ReachI (execPhase1 s snapId jobId b).1
  | phase2 {s : ServiceState} (snapId jobId : String) (r : Except String String) :
      ReachI s → alGet s.snapToJobMap snapId = some jobId →
      ReachI (execPhase2 s snapId jobId r).1
  | term {s : ServiceState} (snapId : String) :
      ReachI s → ReachI (terminateSnap s snapId).1

theorem mapinv_initial (url : String) : MapInv (initialService url) := by
  refine ⟨?_, ?_, ?_, ?_⟩ <;> simp [initialService, alGet]

theorem reach_inv {s : ServiceState} (h : Reach s) : MapInv s ∧ HooksEq s := by
  induction h with
  | start url => exact ⟨mapinv_initial url, rfl⟩
  | exec snapId jobId b hr hf hg ih =>
    exact ⟨mapinv_executeSnap ih.1 snapId jobId b hf,
      hooksEq_executeSnap ih.2 snapId jobId b⟩
  | term snapId hr hm ih =>
    exact ⟨mapinv_terminateSnap ih.1 snapId, hooksEq_terminateSnap ih.2 snapId⟩

theorem reachI_mapinv {s : ServiceState} (h : ReachI s) : MapInv s := by
  induction h with
  | start url => exact mapinv_initial url
  | phase1 snapId jobId b hr hf ih => exact mapinv_execPhase1 ih snapId jobId b hf
  | phase2 snapId jobId r hr hm ih => exact mapinv_execPhase2 ih snapId jobId r
  | term snapId hr ih => exact mapinv_terminateSnap ih snapId

/-! ## terminateAllSnaps -/

theorem terminateAllGo_spec : ∀ (l : List String) (s : ServiceState),
    MapInv s → s.jobs = l → (∀ j ∈ l, (alGet s.jobToSnapMap j).isSome) →
    (terminateAllGo s l).2 = .ok () ∧
      (terminateAllGo s l).1.jobs = [] ∧
      (terminateAllGo s l).1.snapToJobMap = [] ∧
      (terminateAllGo s l).1.jobToSnapMap = [] ∧
      (terminateAllGo s l).1.timeoutForUnresponsiveMap = [] := by
  intro l
  induction l with
  | nil =>
    intro s hs hjobs _
    have hgo : terminateAllGo s [] = (s, Except.ok ()) := by
      simp [terminateAllGo]
    rw [hgo]
    refine ⟨rfl, hjobs, ?_, ?_, ?_⟩
    · show s.snapToJobMap = []
      cases hS : s.snapToJobMap with
      | nil => rfl
      | cons hd tl =>
        rcases hd with ⟨a, b⟩
        have hmem := hs.mappedJobs a b (by rw [hS]; exact alGet_cons_self a b tl)
        rw [hjobs] at hmem
        simp at hmem
    · show s.jobToSnapMap = []
      cases hJ : s.jobToSnapMap with
      | nil => rfl
      | cons hd tl =>
        rcases hd with ⟨b, a⟩
        have h1 : alGet s.jobToSnapMap b = some a := by
          rw [hJ]
          exact alGet_cons_self b a tl
        have h2 := (hs.inverse a b).mpr h1
        have hmem := hs.mappedJobs a b h2
        rw [hjobs] at hmem
        simp at hmem
    · show s.timeoutForUnresponsiveMap = []
      cases hT : s.timeoutForUnresponsiveMap with
      | nil => rfl
      | cons hd tl =>
        have hmem : hd ∈ s.timeoutForUnresponsiveMap := by
          rw [hT]
          simp
        rcases Option.isSome_iff_exists.mp (hs.timersSub hd hmem) with ⟨b, hb⟩
        have hmem2 := hs.mappedJobs hd b hb
        rw [hjobs] at hmem2
        simp at hmem2
  | cons j rest ih =>
    intro s hs hjobs hmap
    have hjmem : j ∈ s.jobs := by
      rw [hjobs]
      simp
    rcases Option.isSome_iff_exists.mp (hmap j (by simp)) with ⟨A, hA⟩
    have ht := terminate_ok hjmem hA
    have hnd := hs.jobsNodup
    rw [hjobs] at hnd
    rcases List.nodup_cons.mp hnd with ⟨hnj, _⟩
    have hs' : MapInv (stateTerm s j A) := mapinv_stateTerm hs hA
    have hjobs' : (stateTerm s j A).jobs = rest := by
      simp only [stateTerm]
      rw [hjobs, ksDelete_cons_self hnj]
    have hmap' : ∀ j2 ∈ rest, (alGet (stateTerm s j A).jobToSnapMap j2).isSome := by
      intro j2 hj2
      have hne : j2 ≠ j := fun hc => hnj (hc ▸ hj2)
      simp only [stateTerm]
      rw [alGet_delete_ne _ _ _ hne]
      exact hmap j2 (by simp [hj2])
    have hstep : terminateAllGo s (j :: rest) = terminateAllGo (stateTerm s j A) rest := by
      simp only [terminateAllGo, ht]
    rw [hstep]
    exact ih (stateTerm s j A) hs' hjobs' hmap'

theorem terminateAllSnaps_spec {s : ServiceState} (hs : MapInv s)
    (hmap : ∀ j ∈ s.jobs, (alGet s.jobToSnapMap j).isSome) :
    (terminateAllSnaps s).2 = .ok () ∧
      (terminateAllSnaps s).1.snapRpcHooks = [] ∧
      (terminateAllSnaps s).1.jobs = [] ∧
      (terminateAllSnaps s).1.snapToJobMap = [] ∧
      (terminateAllSnaps s).1.jobToSnapMap = [] ∧
      (terminateAllSnaps s).1.timeoutForUnresponsiveMap = [] := by
  have hgo := terminateAllGo_spec s.jobs s hs rfl hmap
  rcases hg : terminateAllGo s s.jobs with ⟨s1, r⟩
  rw [hg] at hgo
  rcases hgo with ⟨hr, h1, h2, h3, h4⟩
  cases r with
  | error e => simp at hr
  | ok u =>
    cases u
    simp only [terminateAllSnaps, hg]
    refine ⟨trivial, trivial, h1, h2, h3, h4⟩

/-! ## Isolate-side worker controller -/

/-- A thrown JS error, identified by its message. -/
structure JsError where
  message : String
deriving Repr, DecidableEq

/-- A JSON-RPC response written by the worker on the command stream: exactly
one of result or error. -/
inductive RpcResponse (V : Type) where
  | result (v : V)
  | error (e : JsError)
deriving Repr, DecidableEq

/-- The snapRpcHandlers map of the worker Controller. -/
abbrev WHandlers (H : Type) := List (String × H)

/-- Abstraction of a (non-empty) snap source string, by its observable
behaviour when evaluated in the compartment: which handler it registers
through wallet.registerRpcMessageHandler, and whether evaluation throws. -/
inductive Source (H : Type) where
  | evalOk (registers : Option H)
  | evalThrows (registers : Option H) (message : String)

/-- compartment.evaluate(sourceCode): run the registration the source
performs (registerRpcMessageHandler throws on double registration, aborting
evaluation), then finish with the evaluation outcome of the source. -/
def evaluateSource {H : Type} (handlers : WHandlers H) (snapId : String) :
    Source H → WHandlers H × Option JsError
  | .evalOk none => (handlers, none)
  | .evalOk (some h) =>
    if alHas handlers snapId then (handlers, some ⟨"RPC handler already registered."⟩)
    else (alSet handlers snapId h, none)
  | .evalThrows none m => (handlers, some ⟨m⟩)
  | .evalThrows (some h) m =>
    if alHas handlers snapId then (handlers, some ⟨"RPC handler already registered."⟩)
    else (alSet handlers snapId h, some ⟨m⟩)

/-- removeSnap: delete the snap handler, if any. -/
def removeSnap {H : Type} (handlers : WHandlers H) (snapId : String) : WHandlers H :=
  alDelete handlers snapId

/-- startSnap: evaluate the source; a throw during evaluation is caught right
here: the handler is removed and the error only logged — it is not rethrown. -/
def startSnap {H : Type} (handlers : WHandlers H) (snapId : String)
    (src : Source H) : WHandlers H :=
  match evaluateSource handlers snapId src with
  | (h1, none) => h1
  | (h1, some _) => removeSnap h1 snapId

/-- The executeSnap command handler of the worker Controller.  Because
startSnap catches evaluation errors internally, the catch branch that would
respond with an error is unreachable for them, and after the parameter check
the response is always result OK. -/
def workerExecuteSnap {H : Type} (handlers : WHandlers H) (snapId : String)
    (src : Source H) : WHandlers H × RpcResponse String :=
  if snapId = "" then (handlers, .error ⟨"Invalid executeSnap parameters."⟩)
  else (startSnap handlers snapId src, .result "OK")

/-- A registered snap RPC handler: (origin, request) to a result or a thrown
error (of which only the message travels back to the host). -/
def SnapRpcHandler (R V : Type) : Type := String → R → Except JsError V

/-- The snapRpc command handler of the worker Controller. -/
def handleSnapRpc {R V : Type} (handlers : WHandlers (SnapRpcHandler R V))
    (target origin : String) (request : R) : RpcResponse V :=
  match alGet handlers target with
  | none => .error ⟨"No RPC handler registered for snap \"" ++ target ++ "\"."⟩
  | some h =>
    match h origin request with
    | .ok v => .result v
    | .error e => .error e

/-- _command on the host: a response with an error field is rethrown as a new
Error carrying the response error message; otherwise the result is returned. -/
def hostHandleResponse {V : Type} : RpcResponse V → Except JsError V
  | .result v => .ok v
  | .error e => .error ⟨e.message⟩

/-- The snap RPC hook created by _createSnapHooks, composed with the isolate
round trip: a snapRpc command for the fixed target and job, sent through
_command (which fails when the job record is gone). -/
def snapRpcHook {R V : Type} (jobs : List String) (jobId : String)
    (handlers : WHandlers (SnapRpcHandler R V)) (target origin : String)
    (request : R) : Except JsError V :=
  if jobId ∈ jobs then
    hostHandleResponse (handleSnapRpc handlers target origin request)
  else .error ⟨"Job with id \"" ++ jobId ++ "\" not found."⟩

/-! ## Liveness polling -/

/-- Behaviour of the isolate for one liveness ping: respond after t ms or
fail with an error. -/
inductive PingBehavior where
  | respondsAfter (t : Nat)
  | fails (message : String)
deriving Repr, DecidableEq

/-- _getJobStatus: race the ping command against the unresponsiveTimeout. -/
def _getJobStatus (unresponsiveTimeout : Nat) : PingBehavior → Except String Unit
  | .respondsAfter t =>
    if t < unresponsiveTimeout then .ok () else .error "ping request timed out"
  | .fails m => .error m

/-- Whether one liveness round fails (ping error or timeout). -/
def pingFails (unresponsiveTimeout : Nat) (p : PingBehavior) : Bool :=
  match _getJobStatus unresponsiveTimeout p with
  | .ok _ => false
  | .error _ => true

/-- The liveness loop of _pollForJobStatus over successive ping behaviours:
how many unresponsive events are published, and whether another poll is
still scheduled at the end. -/
def pollLoop (unresponsiveTimeout : Nat) : List PingBehavior → Nat × Bool
  | [] => (0, true)
  | p :: rest =>
    match _getJobStatus unresponsiveTimeout p with
    | .ok _ => pollLoop unresponsiveTimeout rest
    | .error _ => (1, false)

/-! ## Out-of-band error listener -/

/-- A message observed by the out-of-band error listener on the command
substream: an optional truthy error value (identified by its message) and an
optional id (none models id null or undefined). -/
structure OobMessage where
  error : Option String
  id : Option String
deriving Repr, DecidableEq

/-- The firing condition of the error listener. -/
def isOobError (m : OobMessage) : Bool := m.error.isSome && m.id.isNone

/-- One data event seen by errorHandler: whether the listener is still
attached afterwards, and the unhandledError publications (snapId, error). -/
def errorHandlerStep (jobToSnapMap : List (String × String)) (jobId : String)
    (m : OobMessage) : Bool × List (String × String) :=
  if isOobError m then
    (false,
     match alGet jobToSnapMap jobId, m.error with
     | some snapId, some e => [(snapId, e)]
     | _, _ => [])
  else (true, [])

/-- Publications caused by a stream of command messages, starting from the
given listener attachment state. -/
def runErrorHandler (jobToSnapMap : List (String × String)) (jobId : String) :
    Bool → List OobMessage → List (String × String)
  | _, [] => []
  | false, _ :: _ => []
  | true, m :: rest =>
    (errorHandlerStep jobToSnapMap jobId m).2 ++
      runErrorHandler jobToSnapMap jobId (errorHandlerStep jobToSnapMap jobId m).1 rest

/-! ## Event-order checks -/

/-- In the trace, every event satisfying isB is preceded by a strictly
earlier event satisfying isA. -/
def eventPrecedes (isA isB : SEvent → Bool) : Bool → List SEvent → Bool
  | _, [] => true
  | seenA, e :: rest =>
    (!(isB e) || seenA) && eventPrecedes isA isB (seenA || isA e) rest

def isMappedEvent : SEvent → Bool
  | .mapped _ _ => true
  | _ => false

def isExecuteConfirmedEvent : SEvent → Bool
  | .executeConfirmed _ => true
  | _ => false

def isHookInstalledEvent : SEvent → Bool
  | .hookInstalled _ => true
  | _ => false

def isStreamsDestroyedEvent : SEvent → Bool
  | .streamsDestroyed _ => true
  | _ => false

def isMappingRemovedEvent : SEvent → Bool
  | .mappingRemoved _ _ => true
  | _ => false

def isHookRemovedEvent : SEvent → Bool
  | .hookRemoved _ => true
  | _ => false

def isJobDeletedEvent : SEvent → Bool
  | .jobDeleted _ => true
  | _ => false

/-! ## Sample states used by witnesses and counterexamples -/

/-- The state after one successful executeSnap of snap A on job j1 from a
fresh service. -/
def sampleExec : ServiceState :=
  (executeSnap (initialService "u") "A" "j1" ⟨true, .ok (), .ok "OK"⟩).1

theorem sampleExec_reach : Reach sampleExec :=
  Reach.exec "A" "j1" ⟨true, .ok (), .ok "OK"⟩ (Reach.start "u")
    ⟨List.not_mem_nil _, rfl, List.not_mem_nil _, List.not_mem_nil _⟩ rfl

/-- The state of the service while the first executeSnap command for snap A
is still awaiting the response of the isolate. -/
def sampleMid : ServiceState :=
  (execPhase1 (initialService "u") "A" "j1" ⟨true, .ok ()⟩).1

theorem sampleMid_reachI : ReachI sampleMid :=
  ReachI.phase1 "A" "j1" ⟨true, .ok ()⟩ (ReachI.start "u")
    ⟨List.not_mem_nil _, rfl, List.not_mem_nil _, List.not_mem_nil _⟩

/-- The state left behind by an executeSnap whose handshake ping failed: the
job record exists but no snap↔job mapping does. -/
def orphanState : ServiceState :=
  (executeSnap (initialService "u") "A" "j1" ⟨true, .error "ping failed", .ok "OK"⟩).1

theorem runErrorHandler_false (jobToSnapMap : List (String × String))
    (jobId : String) (msgs : List OobMessage) :
    runErrorHandler jobToSnapMap jobId false msgs = [] := by
  cases msgs <;> rfl

/-! ## Claim theorems -/

/-- Claim C1 (code bug): a snap whose source throws during evaluation, such
as sourceCode "throw new Error(BOOM)".  The worker catches the throw inside
startSnap — removing the registered handler, if any, and only logging — so
the executeSnap response is result OK rather than an error, and the host
promise therefore resolves and installs the mapping and the hook instead of
rejecting.  This contradicts the claim (and the doc comment of startSnap,
which says it may throw, making the error branch of the worker executeSnap
dead for evaluation errors). -/
theorem c1_evaluation_throw_swallowed :
    workerExecuteSnap ([] : WHandlers Unit) "A" (.evalThrows none "boom") =
      ([], .result "OK")
  ∧ workerExecuteSnap ([] : WHandlers Unit) "A" (.evalThrows (some ()) "boom") =
      ([], .result "OK")
  ∧ (executeSnap (initialService "u") "A" "j1" ⟨true, .ok (), .ok "OK"⟩).2.2 =
      .ok "OK"
  ∧ alGet (executeSnap (initialService "u") "A" "j1"
      ⟨true, .ok (), .ok "OK"⟩).1.snapToJobMap "A" = some "j1"
  ∧ (executeSnap (initialService "u") "A" "j1"
      ⟨true, .ok (), .ok "OK"⟩).1.snapRpcHooks = ["A"] :=
  ⟨rfl, rfl, rfl, rfl, rfl⟩

/-- Claim C2 counterexample: in a successful executeSnap run the mapping is
installed strictly before the isolate confirms the executeSnap command (so
it is not installed only after confirmation), and in terminate the streams
are destroyed strictly before the mapping is removed (so removal does not
precede stream destruction). -/
theorem c2_counterexample :
    eventPrecedes isExecuteConfirmedEvent isMappedEvent false
        (executeSnap (initialService "u") "A" "j1" ⟨true, .ok (), .ok "OK"⟩).2.1 =
      false
  ∧ eventPrecedes isMappingRemovedEvent isStreamsDestroyedEvent false
        (terminate sampleExec "j1").2.1 = false :=
  ⟨rfl, rfl⟩

/-- Claim C2 amended: the RPC hook is installed only after the isolate has
confirmed executeSnap with a success response, but the snap↔job mapping is
installed earlier, before the command is even sent; on terminate the streams
are destroyed first, and the mapping and the hook are removed after stream
destruction but before the job record is deleted. -/
theorem c2_amended_ordering (s : ServiceState) (snapId jobId : String)
    (b : ExecBehavior) (r : String)
    (hok : (executeSnap s snapId jobId b).2.2 = .ok r)
    (s2 : ServiceState) (j2 A2 : String) (hj : j2 ∈ s2.jobs)
    (hm : alGet s2.jobToSnapMap j2 = some A2) :
    eventPrecedes isExecuteConfirmedEvent isHookInstalledEvent false
        (executeSnap s snapId jobId b).2.1 = true
  ∧ eventPrecedes isMappedEvent isExecuteConfirmedEvent false
        (executeSnap s snapId jobId b).2.1 = true
  ∧ eventPrecedes isStreamsDestroyedEvent isMappingRemovedEvent false
        (terminate s2 j2).2.1 = true
  ∧ eventPrecedes isStreamsDestroyedEvent isHookRemovedEvent false
        (terminate s2 j2).2.1 = true
  ∧ eventPrecedes isMappingRemovedEvent isJobDeletedEvent false
        (terminate s2 j2).2.1 = true := by
  rcases executeSnap_ok_elim hok with ⟨hg, hw, hp, hx⟩
  rw [executeSnap_ok hg hw hp hx, terminate_ok hj hm]
  exact ⟨rfl, rfl, rfl, rfl, rfl⟩

/-- Witness for C2 amended at concrete inputs. -/
theorem c2_witness :
    eventPrecedes isExecuteConfirmedEvent isHookInstalledEvent false
        (executeSnap (initialService "u") "A" "j1" ⟨true, .ok (), .ok "OK"⟩).2.1 =
      true
  ∧ eventPrecedes isMappedEvent isExecuteConfirmedEvent false
        (executeSnap (initialService "u") "A" "j1" ⟨true, .ok (), .ok "OK"⟩).2.1 =
      true
  ∧ eventPrecedes isStreamsDestroyedEvent isMappingRemovedEvent false
        (terminate sampleExec "j1").2.1 = true
  ∧ eventPrecedes isStreamsDestroyedEvent isHookRemovedEvent false
        (terminate sampleExec "j1").2.1 = true
  ∧ eventPrecedes isMappingRemovedEvent isJobDeletedEvent false
        (terminate sampleExec "j1").2.1 = true :=
  c2_amended_ordering (initialService "u") "A" "j1" ⟨true, .ok (), .ok "OK"⟩ "OK"
    rfl sampleExec "j1" "A" (by decide) rfl

/-- Claim C3: in every state reachable by a contract-obeying sequence of
executeSnap and terminateSnap calls (fresh job ids, no double execute, no
terminate-unknown), a hook exists for a snapId iff that snapId is in the
snap↔job mapping, the two mapping directions are mutually inverse (so each
live snap has exactly one job and each live job at most one snap), and the
number of mapping entries equals the number of hooks. -/
theorem c3_reachable_invariant (s : ServiceState) (h : Reach s) :
    (∀ snapId, snapId ∈ s.snapRpcHooks ↔ (alGet s.snapToJobMap snapId).isSome)
  ∧ (∀ snapId jobId, alGet s.snapToJobMap snapId = some jobId ↔
       alGet s.jobToSnapMap jobId = some snapId)
  ∧ s.snapRpcHooks.length = s.snapToJobMap.length := by
  rcases reach_inv h with ⟨hm, he⟩
  have he2 : s.snapRpcHooks = s.snapToJobMap.map Prod.fst := he
  refine ⟨?_, hm.inverse, ?_⟩
  · intro snapId
    rw [he2]
    exact mem_keys_iff _ _
  · rw [he2]
    exact List.length_map _ _

/-- Witness for C3 at the state reached by one successful executeSnap. -/
theorem c3_witness :
    (∀ snapId, snapId ∈ sampleExec.snapRpcHooks ↔
        (alGet sampleExec.snapToJobMap snapId).isSome)
  ∧ (∀ snapId jobId, alGet sampleExec.snapToJobMap snapId = some jobId ↔
       alGet sampleExec.jobToSnapMap jobId = some snapId)
  ∧ sampleExec.snapRpcHooks.length = sampleExec.snapToJobMap.length :=
  c3_reachable_invariant sampleExec sampleExec_reach

/-- Claim C4 counterexample: with the iframe window created and the
handshake ping failing, _init rejects but leaves the job record, the
streams, and the iframe container behind — the partial isolate is not torn
down. -/
theorem c4_counterexample :
    (_init (initialService "u") "j1" ⟨true, .error "ping failed"⟩).2.2 =
      .error "ping failed"
  ∧ "j1" ∈ (_init (initialService "u") "j1" ⟨true, .error "ping failed"⟩).1.jobs
  ∧ "j1" ∈ (_init (initialService "u") "j1" ⟨true, .error "ping failed"⟩).1.iframes
  ∧ "j1" ∈ (_init (initialService "u") "j1"
      ⟨true, .error "ping failed"⟩).1.liveStreams := by
  refine ⟨rfl, ?_, ?_, ?_⟩ <;> decide

/-- Claim C4 amended: _init returns the job only when the window was created
and the initial ping was awaited successfully; a window-creation timeout
removes the partial iframe and leaves the state unchanged; but a ping
failure tears nothing down — the job record, the streams, and the iframe
container all remain. -/
theorem c4_amended_init (s : ServiceState) (jobId : String) (b : InitBehavior) :
    ((_init s jobId b).2.2 = .ok () ↔ b.windowOk = true ∧ b.pingResult = .ok ())
  ∧ (b.windowOk = false → _init s jobId b =
      (s, [], .error ("Timed out creating iframe window: \"" ++ s.iframeUrl ++ "\"")))
  ∧ (∀ e, b.windowOk = true → b.pingResult = .error e →
      _init s jobId b = (stateSpawned s jobId, [], .error e) ∧
        jobId ∈ (stateSpawned s jobId).jobs ∧
        jobId ∈ (stateSpawned s jobId).iframes ∧
        jobId ∈ (stateSpawned s jobId).liveStreams) := by
  refine ⟨?_, fun hw => _init_noWindow hw, ?_⟩
  · constructor
    · intro hok
      cases hw : b.windowOk with
      | false =>
        rw [_init_noWindow hw] at hok
        simp at hok
      | true =>
        cases hp : b.pingResult with
        | error e =>
          rw [_init_pingFail hw hp] at hok
          simp at hok
        | ok u =>
          cases u
          exact ⟨rfl, rfl⟩
    · rintro ⟨hw, hp⟩
      rw [_init_ok hw hp]
  · intro e hw hp
    refine ⟨_init_pingFail hw hp, ?_, ?_, ?_⟩
    · exact mem_ksSet_self _ _
    · simp [stateSpawned]
    · simp [stateSpawned]

/-- Witness for C4 amended: a window-creation timeout, and a ping failure
leaving the partial isolate behind. -/
theorem c4_witness :
    _init (initialService "u") "j1" ⟨false, .ok ()⟩ =
      (initialService "u", [],
       .error ("Timed out creating iframe window: \"" ++
         (initialService "u").iframeUrl ++ "\""))
  ∧ "j1" ∈ (stateSpawned (initialService "u") "j1").jobs :=
  ⟨(c4_amended_init (initialService "u") "j1" ⟨false, .ok ()⟩).2.1 rfl,
   ((c4_amended_init (initialService "u") "j1" ⟨true, .error "x"⟩).2.2 "x" rfl
      rfl).2.1⟩

/-- Claim C5 counterexample: orphanState arises from a single executeSnap
call whose handshake ping failed; its jobs map contains j1, yet terminate j1
throws instead of cleaning up — so terminate does not succeed for every job
present in the jobs map. -/
theorem c5_counterexample :
    orphanState.jobs = ["j1"]
  ∧ (terminate orphanState "j1").2.2 =
      .error ("Failed to find a snap for job with id \"" ++ "j1" ++ "\"") :=
  ⟨rfl, rfl⟩

/-- Claim C5 amended: terminate never throws for a job that has a snap
mapping, and afterwards the streams are destroyed, the container removed,
the liveness timer cancelled, both mapping directions gone, the hook gone
and the job record gone; and from a reachable state in which every job is
mapped, terminateAllSnaps empties hooks, mappings, jobs and timers.  (A job
left by a failed _init handshake has no mapping, and terminate on it
throws.) -/
theorem c5_amended_terminate :
    (∀ (s : ServiceState) (jobId snapId : String), jobId ∈ s.jobs →
      alGet s.jobToSnapMap jobId = some snapId →
      (terminate s jobId).2.2 = .ok () ∧
        jobId ∉ (terminate s jobId).1.liveStreams ∧
        jobId ∉ (terminate s jobId).1.iframes ∧
        snapId ∉ (terminate s jobId).1.timeoutForUnresponsiveMap ∧
        alGet (terminate s jobId).1.jobToSnapMap jobId = none ∧
        alGet (terminate s jobId).1.snapToJobMap snapId = none ∧
        snapId ∉ (terminate s jobId).1.snapRpcHooks ∧
        jobId ∉ (terminate s jobId).1.jobs)
  ∧ (∀ (s : ServiceState), Reach s →
      (∀ j ∈ s.jobs, (alGet s.jobToSnapMap j).isSome) →
      (terminateAllSnaps s).2 = .ok () ∧
        (terminateAllSnaps s).1.snapRpcHooks = [] ∧
        (terminateAllSnaps s).1.snapToJobMap = [] ∧
        (terminateAllSnaps s).1.jobToSnapMap = [] ∧
        (terminateAllSnaps s).1.jobs = [] ∧
        (terminateAllSnaps s).1.timeoutForUnresponsiveMap = []) := by
  constructor
  · intro s jobId snapId hj hm
    rw [terminate_ok hj hm]
    refine ⟨rfl, ?_, ?_, ?_, ?_, ?_, ?_, ?_⟩ <;>
      simp [stateTerm, mem_ksDelete, alGet_delete_self]
  · intro s hr hmap
    rcases terminateAllSnaps_spec (reach_inv hr).1 hmap with ⟨h1, h2, h3, h4, h5, h6⟩
    exact ⟨h1, h2, h4, h5, h3, h6⟩

/-- Witness for C5 amended at the state reached by one successful
executeSnap. -/
theorem c5_witness :
    (terminate sampleExec "j1").2.2 = .ok () ∧
      (terminateAllSnaps sampleExec).2 = .ok () :=
  ⟨(c5_amended_terminate.1 sampleExec "j1" "A" (by decide) rfl).1,
   (c5_amended_terminate.2 sampleExec sampleExec_reach (by decide)).1⟩

/-- Claim C6: calling executeSnap with a snapId already present in the
snap↔job mapping rejects with the already-being-executed error and leaves
the whole service state (jobs, mappings, hooks, timers) unchanged — no
silent replacement occurs. -/
theorem c6_duplicate_execute_rejected (s : ServiceState) (snapId jobId : String)
    (b : ExecBehavior) (h : (alGet s.snapToJobMap snapId).isSome) :
    executeSnap s snapId jobId b =
      (s, [], .error ("Snap \"" ++ snapId ++ "\" is already being executed.")) :=
  executeSnap_already (by simpa [alHas] using h)

/-- Witness for C6 at the state reached by one successful executeSnap. -/
theorem c6_witness :
    executeSnap sampleExec "A" "j2" ⟨true, .ok (), .ok "OK"⟩ =
      (sampleExec, [], .error ("Snap \"" ++ "A" ++ "\" is already being executed.")) :=
  c6_duplicate_execute_rejected sampleExec "A" "j2" ⟨true, .ok (), .ok "OK"⟩
    (by decide)

/-- Claim C7: the polling interval and unresponsive timeout default to 5000
and 30000 ms; each ping is raced against the unresponsive timeout (a ping
answered at or after the timeout counts as timed out); while pings succeed
exactly one next poll stays scheduled; on the first ping failure or timeout
exactly one unresponsive event is published and no further poll is
scheduled; the timer handle is stored per snap by a successful executeSnap
and cleared by terminate. -/
theorem c7_liveness_polling :
    defaultUnresponsivePollingInterval = 5000
  ∧ defaultUnresponsiveTimeout = 30000
  ∧ (∀ t, (t < defaultUnresponsiveTimeout →
        _getJobStatus defaultUnresponsiveTimeout (.respondsAfter t) = .ok ()) ∧
      (defaultUnresponsiveTimeout ≤ t →
        _getJobStatus defaultUnresponsiveTimeout (.respondsAfter t) =
          .error "ping request timed out"))
  ∧ (∀ l, pollLoop defaultUnresponsiveTimeout l =
      (if l.any (pingFails defaultUnresponsiveTimeout) then 1 else 0,
       !(l.any (pingFails defaultUnresponsiveTimeout))))
  ∧ (∀ (s : ServiceState) (snapId jobId : String) (b : ExecBehavior) (r : String),
      (executeSnap s snapId jobId b).2.2 = .ok r →
      snapId ∈ (executeSnap s snapId jobId b).1.timeoutForUnresponsiveMap)
  ∧ (∀ (s : ServiceState) (jobId snapId : String), jobId ∈ s.jobs →
      alGet s.jobToSnapMap jobId = some snapId →
      snapId ∉ (terminate s jobId).1.timeoutForUnresponsiveMap) := by
  refine ⟨rfl, rfl, ?_, ?_, ?_, ?_⟩
  · intro t
    constructor
    · intro h
      simp [_getJobStatus, h]
    · intro h
      simp [_getJobStatus, Nat.not_lt.mpr h]
  · intro l
    induction l with
    | nil => rfl
    | cons p rest ih =>
      cases hg : _getJobStatus defaultUnresponsiveTimeout p with
      | ok u =>
        cases u
        have hpf : pingFails defaultUnresponsiveTimeout p = false := by
          simp [pingFails, hg]
        simp [pollLoop, hg, hpf, ih]
      | error e =>
        have hpf : pingFails defaultUnresponsiveTimeout p = true := by
          simp [pingFails, hg]
        simp [pollLoop, hg, hpf]
  · intro s snapId jobId b r hok
    rcases executeSnap_ok_elim hok with ⟨hg, hw, hp, hx⟩
    rw [executeSnap_ok hg hw hp hx]
    exact mem_ksSet_self _ _
  · intro s jobId snapId hj hm
    rw [terminate_ok hj hm]
    exact not_mem_ksDelete_self _ _

/-- Witness for C7: a ping answered exactly at the timeout counts as timed
out, a failure mid-list publishes exactly once and stops, a successful
executeSnap stores the timer, terminate clears it. -/
theorem c7_witness :
    _getJobStatus defaultUnresponsiveTimeout (.respondsAfter 30000) =
      .error "ping request timed out"
  ∧ pollLoop defaultUnresponsiveTimeout
      [.respondsAfter 1, .fails "stream closed", .respondsAfter 1] = (1, false)
  ∧ "A" ∈ (executeSnap (initialService "u") "A" "j1"
      ⟨true, .ok (), .ok "OK"⟩).1.timeoutForUnresponsiveMap
  ∧ "A" ∉ (terminate sampleExec "j1").1.timeoutForUnresponsiveMap := by
  refine ⟨?_, ?_, ?_, ?_⟩
  · exact (c7_liveness_polling.2.2.1 30000).2 (Nat.le_refl _)
  · rw [c7_liveness_polling.2.2.2.1
      [.respondsAfter 1, .fails "stream closed", .respondsAfter 1]]
    rfl
  · exact c7_liveness_polling.2.2.2.2.1 (initialService "u") "A" "j1"
      ⟨true, .ok (), .ok "OK"⟩ "OK" rfl
  · exact c7_liveness_polling.2.2.2.2.2 sampleExec "j1" "A" (by decide) rfl

/-- Claim C8: for an executing snap, the host RPC hook resolves to exactly
the value the registered handler returns; a handler that throws e rejects
the hook with an error whose message equals the message of e; with no
registered handler for the target, the hook rejects with the
No-RPC-handler-registered error. -/
theorem c8_hook_round_trip {R V : Type} (jobs : List String) (jobId : String)
    (handlers : WHandlers (SnapRpcHandler R V)) (target origin : String)
    (request : R) (hjob : jobId ∈ jobs) :
    (∀ (h : SnapRpcHandler R V) (v : V), alGet handlers target = some h →
        h origin request = .ok v →
        snapRpcHook jobs jobId handlers target origin request = .ok v)
  ∧ (∀ (h : SnapRpcHandler R V) (e : JsError), alGet handlers target = some h →
        h origin request = .error e →
        snapRpcHook jobs jobId handlers target origin request = .error ⟨e.message⟩)
  ∧ (alGet handlers target = none →
        snapRpcHook jobs jobId handlers target origin request =
          .error ⟨"No RPC handler registered for snap \"" ++ target ++ "\"."⟩) := by
  refine ⟨?_, ?_, ?_⟩
  · intro h v hh hv
    simp [snapRpcHook, hjob, handleSnapRpc, hh, hv, hostHandleResponse]
  · intro h e hh he
    simp [snapRpcHook, hjob, handleSnapRpc, hh, he, hostHandleResponse]
  · intro hh
    simp [snapRpcHook, hjob, handleSnapRpc, hh, hostHandleResponse]

/-- Witness for C8: a handler returning 7, a handler throwing boom, and a
missing handler. -/
theorem c8_witness :
    snapRpcHook ["j1"] "j1"
        ([("A", fun _o _r => Except.ok 7)] : WHandlers (SnapRpcHandler Unit Nat))
        "A" "origin1" () = .ok 7
  ∧ snapRpcHook ["j1"] "j1"
        ([("A", fun _o _r => Except.error ⟨"boom"⟩)] :
          WHandlers (SnapRpcHandler Unit Nat))
        "A" "origin1" () = .error ⟨"boom"⟩
  ∧ snapRpcHook ["j1"] "j1" ([] : WHandlers (SnapRpcHandler Unit Nat))
        "B" "origin1" () =
      .error ⟨"No RPC handler registered for snap \"" ++ "B" ++ "\"."⟩ := by
  refine ⟨?_, ?_, ?_⟩
  · exact (c8_hook_round_trip ["j1"] "j1" _ "A" "origin1" ()
      (by decide)).1 _ 7 rfl rfl
  · exact (c8_hook_round_trip ["j1"] "j1" _ "A" "origin1" ()
      (by decide)).2.1 _ ⟨"boom"⟩ rfl rfl
  · exact (c8_hook_round_trip ["j1"] "j1" _ "B" "origin1" ()
      (by decide)).2.2 rfl

/-- Claim C9 counterexample: two consecutive id-less error messages on the
command substream produce a single unhandledError publication, not one per
message — the listener removes itself after the first match, so not every
such message causes a publication. -/
theorem c9_counterexample :
    runErrorHandler [("j1", "A")] "j1" true
        [⟨some "x", none⟩, ⟨some "x", none⟩] = [("A", "x")]
  ∧ ([("A", "x")] : List (String × String)).length = 1 :=
  ⟨rfl, rfl⟩

/-- Claim C9 amended: the out-of-band listener fires only for messages with
a truthy error field and a null or undefined id; the FIRST such message
produces exactly one unhandledError publication carrying the mapped snapId
and the error (and none at all when the job is not mapped), after which the
listener detaches, so later matching messages — and all messages with an id
or without an error — trigger nothing. -/
theorem c9_amended_error_listener (jobToSnapMap : List (String × String))
    (jobId : String) (msgs : List OobMessage) :
    runErrorHandler jobToSnapMap jobId true msgs =
      match msgs.find? isOobError with
      | none => []
      | some m =>
        match alGet jobToSnapMap jobId, m.error with
        | some snapId, some e => [(snapId, e)]
        | _, _ => [] := by
  induction msgs with
  | nil => rfl
  | cons m rest ih =>
    cases hm : isOobError m with
    | false =>
      simp [runErrorHandler, errorHandlerStep, hm, List.find?, ih]
    | true =>
      have hstep : errorHandlerStep jobToSnapMap jobId m =
          (false,
           match alGet jobToSnapMap jobId, m.error with
           | some snapId, some e => [(snapId, e)]
           | _, _ => []) := by
        simp [errorHandlerStep, hm]
      simp [runErrorHandler, hstep, runErrorHandler_false, List.find?, hm]

/-- Claim C10: once executeSnap has spawned its job — while the executeSnap
command is still awaiting the response of the isolate — the mapping already
contains the snap; any overlapping second executeSnap for the same snap
rejects with the already-being-executed error; and in every reachable
interleaved state no two jobs are mapped to the same snapId. -/
theorem c10_mapping_during_await (s : ServiceState) :
    (∀ (snapId jobId : String) (b : InitBehavior),
        (execPhase1 s snapId jobId b).2.2 = .ok () →
        alGet (execPhase1 s snapId jobId b).1.snapToJobMap snapId = some jobId)
  ∧ (∀ (snapId jobId : String) (b : InitBehavior),
        (alGet s.snapToJobMap snapId).isSome →
        execPhase1 s snapId jobId b =
          (s, [], .error ("Snap \"" ++ snapId ++ "\" is already being executed.")))
  ∧ (ReachI s → ∀ j1 j2 snapId, alGet s.jobToSnapMap j1 = some snapId →
        alGet s.jobToSnapMap j2 = some snapId → j1 = j2) := by
  refine ⟨?_, ?_, ?_⟩
  · intro snapId jobId b hok
    by_cases hg : alHas s.snapToJobMap snapId
    · rw [execPhase1_already hg] at hok
      simp at hok
    · have hg2 : alHas s.snapToJobMap snapId = false := by simpa using hg
      cases hw : b.windowOk with
      | false =>
        rw [execPhase1_noWindow hg2 hw] at hok
        simp at hok
      | true =>
        cases hp : b.pingResult with
        | error e =>
          rw [execPhase1_pingFail hg2 hw hp] at hok
          simp at hok
        | ok u =>
          cases u
          rw [execPhase1_ok hg2 hw hp]
          try exact stateP1_snapToJob s snapId jobId
  · intro snapId jobId b h
    exact execPhase1_already (by simpa [alHas] using h)
  · intro hr j1 j2 snapId h1 h2
    have hm := reachI_mapinv hr
    have e1 := (hm.inverse snapId j1).mpr h1
    have e2 := (hm.inverse snapId j2).mpr h2
    have e3 := e1.symm.trans e2
    injection e3 with e3
    try exact e3

/-- Witness for C10: the mapping for A exists while the first executeSnap is
awaiting confirmation, a second overlapping executeSnap of A rejects, and in
that interleaved state no two jobs map to A. -/
theorem c10_witness :
    alGet (execPhase1 (initialService "u") "A" "j1"
        ⟨true, .ok ()⟩).1.snapToJobMap "A" = some "j1"
  ∧ execPhase1 sampleMid "A" "j2" ⟨true, .ok ()⟩ =
      (sampleMid, [], .error ("Snap \"" ++ "A" ++ "\" is already being executed."))
  ∧ "j1" = "j1" := by
  refine ⟨?_, ?_, ?_⟩
  · exact (c10_mapping_during_await (initialService "u")).1 "A" "j1"
      ⟨true, .ok ()⟩ rfl
  · exact (c10_mapping_during_await sampleMid).2.1 "A" "j2" ⟨true, .ok ()⟩
      (by decide)
  · exact (c10_mapping_during_await sampleMid).2.2 sampleMid_reachI "j1" "j1" "A"
      rfl rfl

end Snaps
